import Mathlib

/-!
Verification of the real-time data session manager of the insight-dashboard
repository, shallowly embedded in Lean 4.

The embedded source is the React frontend:
- `src/frontend-react/src/context/WebSocketContext.tsx` (authoritative: it is
  the provider mounted in the application root, see `src/unnamed/part_002`):
  history buffer, latest value, WebSocket lifecycle, reconnect policy,
  initial-history fetch;
- the `LineChart` component with forecast overlay in `src/unnamed/part_002`
  (merge effect, lines 329-373): merged timeline of actual / predicted /
  anomaly series.

Modelling conventions:
- JavaScript numbers carried in data points are never subjected to arithmetic
  by this code (they are only copied between slots), so their carrier is
  modelled as `Int`;
- the JS truthiness test `if (!token)` on a nullable string is modelled by
  `jsTruthy` (null and the empty string are falsy);
- `Array.prototype.slice(-n)` on an array of length L keeps the suffix
  starting at `max (L - n) 0`, which is `List.drop (L - n)` with truncated
  natural subtraction;
- asynchronous callbacks (message, close, fetch completion) are events of a
  step function on an explicit provider state, serialised as in the
  single-threaded browser event loop.
-/

namespace Insight

/-- A data point as declared in `WebSocketContext.tsx` lines 4-9
(`{ id, name, value, timestamp }`); `value` is opaque to this code. -/
structure DataPoint where
  id : Nat
  name : String
  value : Int
  timestamp : String
deriving DecidableEq, Repr

/-- A forecast point as declared in `src/unnamed/part_002` lines 212-217. -/
structure ForecastPoint where
  timestamp : String
  value : Int
  lower_bound : Int
  upper_bound : Int
deriving DecidableEq, Repr

/-- An anomaly record as declared inline in `src/unnamed/part_002` line 221. -/
structure AnomalyRecord where
  timestamp : String
  value : Int
  is_anomaly : Bool
deriving DecidableEq, Repr

/-- The forecast snapshot `{ predicted, anomalies }` of
`src/unnamed/part_002` lines 219-222. -/
structure ForecastData where
  predicted : List ForecastPoint
  anomalies : List AnomalyRecord
deriving DecidableEq, Repr

/-- An inbound WebSocket frame, as seen by `ws.onmessage`
(`WebSocketContext.tsx` lines 80-99): either text that fails `JSON.parse`,
or a parsed envelope with a `type` tag and a payload. -/
inductive Frame where
  | malformed
  | envelope (tag : String) (payload : DataPoint)
deriving DecidableEq, Repr

/-- JS truthiness of the nullable token string: `null` and `""` are falsy.
Used by every `if (!token)` / `&& token` guard in the source. -/
def jsTruthy : Option String → Bool
  | none => false
  | some s => !(s == "")

/-- `maxHistoryLength = 50`, `WebSocketContext.tsx` line 34. -/
def maxHistoryLength : Nat := 50

/-- The append performed by `ws.onmessage` on a `new_data` frame
(`WebSocketContext.tsx` lines 91-94):
`const updated = [...prev, newDataPoint]; return updated.slice(-maxHistoryLength)`. -/
def appendHistory (prev : List DataPoint) (p : DataPoint) : List DataPoint :=
  let updated := prev ++ [p]
  updated.drop (updated.length - maxHistoryLength)

/-- Byte-wise (code-point-wise) lexicographic comparison of two character
lists; on ISO-8601 timestamp strings of equal format this is chronological
order. The source never compares timestamps; this order states the spec's
chronological-order invariant. -/
def charListLe : List Char → List Char → Bool
  | [], _ => true
  | _ :: _, [] => false
  | a :: as, b :: bs => if a < b then true else if b < a then false else charListLe as bs

/-- Timestamp comparison: lexicographic on the underlying characters, which
coincides with chronological order for ISO-8601 timestamps. -/
def tsLe (a b : String) : Bool := charListLe a.data b.data

/-- The spec's chronological-order invariant on the history buffer:
timestamps are monotonically non-decreasing along the list. -/
def Chronological (l : List DataPoint) : Prop :=
  l.Pairwise (fun a b => tsLe a.timestamp b.timestamp = true)

instance (l : List DataPoint) : Decidable (Chronological l) := by
  unfold Chronological
  infer_instance

/-- The published state of `WebSocketProvider` (`WebSocketContext.tsx` lines
27-33), extended with the socket/timer resources held in refs and the
forecast snapshot held by the `LineChart` consumer in `src/unnamed/part_002`
(carried here so that teardown claims about it can be stated). -/
structure ProviderState where
  token : Option String
  latestValue : Option DataPoint
  history : List DataPoint
  isConnected : Bool
  connectionError : Option String
  wsOpen : Bool
  reconnectPending : Bool
  forecast : Option ForecastData
deriving DecidableEq, Repr

/-- The initial provider state: no token, empty buffer, nothing published. -/
def initProvider : ProviderState :=
  { token := none, latestValue := none, history := [], isConnected := false,
    connectionError := none, wsOpen := false, reconnectPending := false,
    forecast := none }

/-- Success path of `fetchInitialHistory` (`WebSocketContext.tsx` lines
45-51): `setHistory(data)` wholesale, and `setLatestValue(data[data.length-1])`
only when `data.length > 0`. -/
def replaceAll (s : ProviderState) (data : List DataPoint) : ProviderState :=
  { s with
    history := data,
    latestValue :=
      match data.getLast? with
      | some p => some p
      | none => s.latestValue }

/-- `ws.onmessage` (`WebSocketContext.tsx` lines 80-99). Returns the next
state and whether an internal error was logged: the `catch` logs a parse
error for malformed text; a parsed envelope whose `type` is not `new_data`
falls through the `if` with no effect and no log. -/
def onMessage (s : ProviderState) (f : Frame) : ProviderState × Bool :=
  match f with
  | .malformed => (s, true)
  | .envelope tag p =>
      if tag = "new_data" then
        ({ s with latestValue := some p, history := appendHistory s.history p }, false)
      else
        (s, false)

/-- `ws.onclose` (`WebSocketContext.tsx` lines 106-117): always clears
`isConnected`; schedules the single 3-second reconnect timer exactly when
the close code differs from 1000 and the captured token is truthy. -/
def wsCloseEvent (s : ProviderState) (code : Nat) : ProviderState :=
  { s with
    isConnected := false,
    wsOpen := false,
    reconnectPending :=
      if (code != 1000) && jsTruthy s.token then true else s.reconnectPending }

/-- The result of one `ws.onclose` callback in isolation: the connection flag
is cleared and at most one reconnect attempt is scheduled, with its delay. -/
structure CloseAction where
  isConnected : Bool
  reconnectDelayMs : Option Nat
deriving DecidableEq, Repr

/-- `ws.onclose` (`WebSocketContext.tsx` lines 106-117) viewed as a pure
decision: `if (event.code !== 1000 && token) setTimeout(connect, 3000)`. -/
def wsOnClose (code : Nat) (token : Option String) : CloseAction :=
  { isConnected := false,
    reconnectDelayMs :=
      if (code != 1000) && jsTruthy token then some 3000 else none }

/-- The synchronous part of `connect` (`WebSocketContext.tsx` lines 58-77)
at provider granularity: no-op without a truthy token; otherwise the old
socket handle is replaced by a freshly opened one (handle-level uniqueness
is modelled by `SessionState` below). -/
def connectStep (s : ProviderState) : ProviderState :=
  if jsTruthy s.token then { s with wsOpen := true } else s

/-- The `useEffect` cleanup (`WebSocketContext.tsx` lines 127-135): close the
socket with intentional code 1000 (whose `onclose` schedules nothing), then
`clearTimeout` the pending reconnect timer. -/
def effectCleanup (s : ProviderState) : ProviderState :=
  let s1 := if s.wsOpen then wsCloseEvent s 1000 else s
  { s1 with reconnectPending := false }

/-- A change of the credential as processed by the provider effect
(`WebSocketContext.tsx` lines 121-136): the old effect's cleanup runs, the
token takes its new value, and the effect body reconnects only for a truthy
token (the initial-history fetch it also issues completes as a separate
`fetchSuccess` event). -/
def credChange (s : ProviderState) (t : Option String) : ProviderState :=
  let s1 := effectCleanup s
  let s2 := { s1 with token := t }
  if jsTruthy t then connectStep s2 else s2

/-- Logout: the credential becomes absent. -/
def logoutStep (s : ProviderState) : ProviderState := credChange s none

/-- The asynchronous callbacks and effects that mutate provider state,
serialised by the browser event loop. -/
inductive CoreEvent where
  | fetchSuccess (data : List DataPoint)
  | fetchFailure
  | socketOpen
  | socketMessage (f : Frame)
  | socketError
  | socketClose (code : Nat)
  | forecastSuccess (d : ForecastData)
  | credentialChange (t : Option String)
deriving Repr

/-- One event-loop step of the provider, each arm embedding the
corresponding handler in `WebSocketContext.tsx` (`onopen` lines 74-78,
`onmessage` 80-99, `onerror` 101-104, `onclose` 106-117, fetch 37-55,
effect 121-136) and the forecast fetch of `src/unnamed/part_002`. -/
def step (s : ProviderState) : CoreEvent → ProviderState
  | .fetchSuccess data => replaceAll s data
  | .fetchFailure => s
  | .socketOpen => { s with isConnected := true, connectionError := none }
  | .socketMessage f => (onMessage s f).1
  | .socketError => { s with connectionError := some "WebSocket connection error" }
  | .socketClose code => wsCloseEvent s code
  | .forecastSuccess d => { s with forecast := some d }
  | .credentialChange t => credChange s t

/-- Socket-handle bookkeeping for the uniqueness claim: `nextId` numbers the
`new WebSocket(...)` constructions, `current` is `wsRef.current`, `openIds`
the set of handles not yet closed. -/
structure SessionState where
  nextId : Nat
  current : Option Nat
  openIds : List Nat
deriving DecidableEq, Repr

/-- Initial session: no socket ever opened. -/
def initSession : SessionState := ⟨0, none, []⟩

/-- `connect` (`WebSocketContext.tsx` lines 58-77) at handle granularity:
guard `if (!token) return`; then `if (wsRef.current) wsRef.current.close()`;
then `wsRef.current = new WebSocket(wsUrl)`. -/
def connectSession (token : Option String) (s : SessionState) : SessionState :=
  if jsTruthy token then
    let closed :=
      match s.current with
      | some i => { s with openIds := s.openIds.erase i }
      | none => s
    { closed with
      nextId := closed.nextId + 1,
      current := some closed.nextId,
      openIds := closed.openIds ++ [closed.nextId] }
  else s

/-- The reachable-states invariant of `connectSession`: the open handles are
exactly the current one, or none. -/
def SessionInv (s : SessionState) : Prop :=
  (s.current = none ∧ s.openIds = []) ∨
  (∃ i, s.current = some i ∧ s.openIds = [i])

/-- The per-history anomaly overlay of the merge effect
(`src/unnamed/part_002` lines 360-366): a history point carries its own value
as marker exactly when some anomaly record has its timestamp; computed
whenever a snapshot is present, independently of the forecast toggle. -/
def anomalySeries (history : List DataPoint) (forecast : Option ForecastData) :
    List (Option Int) :=
  match forecast with
  | some f =>
      history.map (fun pt =>
        if f.anomalies.any (fun a => a.timestamp == pt.timestamp) then some pt.value
        else none)
  | none => List.replicate history.length none

/-- The merged chart datasets written by the merge effect: labels, the
`Actual`, `Predicted` and `Anomalies` series (`src/unnamed/part_002`
lines 329-373). -/
structure MergedChart where
  labels : List String
  actual : List (Option Int)
  predicted : List (Option Int)
  anomaly : List (Option Int)
deriving DecidableEq, Repr

/-- The merge effect of `LineChart` (`src/unnamed/part_002` lines 329-373),
as a pure function of history, snapshot and toggle; `fmt` abstracts
`new Date(ts).toLocaleTimeString()`. Returns `none` when the effect body is
skipped (`history.length > 0` guard, line 330). In the forecast branch the
actual series is padded with nulls over the horizon and the predicted series
starts with nulls, duplicates the last actual value as join point, then
carries the predicted values. -/
def mergeChart (history : List DataPoint) (forecast : Option ForecastData)
    (showForecast : Bool) (fmt : String → String) : Option MergedChart :=
  if history.length > 0 then
    let actualLabels := history.map (fun pt => fmt pt.timestamp)
    let actualValues := history.map (fun pt => pt.value)
    match showForecast, forecast with
    | true, some f =>
        some { labels := actualLabels ++ f.predicted.map (fun p => fmt p.timestamp),
               actual := actualValues.map some ++ List.replicate f.predicted.length none,
               predicted :=
                 List.replicate (actualValues.length - 1) none
                   ++ actualValues.getLast? :: f.predicted.map (fun p => some p.value),
               anomaly := anomalySeries history forecast }
    | _, _ =>
        some { labels := actualLabels,
               actual := actualValues.map some,
               predicted := List.replicate actualValues.length none,
               anomaly := anomalySeries history forecast }
  else none

/-- The forecast-fetch trigger of `src/unnamed/part_002` lines 255-261:
`if (token && history.length >= 10)`, re-evaluated on `[token, history.length]`
only — the display toggle is not among its inputs, so toggling cannot start a
fetch. -/
def forecastFetchActive (token : Option String) (historyLength : Nat) : Bool :=
  jsTruthy token && decide (historyLength ≥ 10)

/-- Concrete point with the later timestamp, used in concrete runs. -/
def p5 : DataPoint := ⟨1, "cpu", 52, "2024-01-01T00:00:05"⟩

/-- Concrete stale point: its timestamp precedes that of `p5`. -/
def p3 : DataPoint := ⟨2, "cpu", 48, "2024-01-01T00:00:03"⟩

/-- A 51-point snapshot (one more than the buffer capacity). -/
def bigSnapshot : List DataPoint :=
  (List.range 51).map (fun i => ⟨i, "cpu", 50, "2024-01-01T00:00:00"⟩)

/-- Concrete forecast snapshot with one predicted point. -/
def f0 : ForecastData := ⟨[⟨"2024-01-01T00:00:06", 51, 45, 60⟩], []⟩

/-- A concrete connected provider state with a one-point buffer. -/
def demoConnected : ProviderState :=
  { token := some "jwt", latestValue := some p5, history := [p5],
    isConnected := true, connectionError := none, wsOpen := true,
    reconnectPending := false, forecast := some f0 }

/-- Concrete two-point chronological history. -/
def histTwo : List DataPoint :=
  [⟨1, "cpu", 47, "2024-01-01T00:00:01"⟩, ⟨2, "cpu", 49, "2024-01-01T00:00:02"⟩]

/-- Concrete snapshot whose only anomaly record matches the first point of
`histTwo`. -/
def anomalousForecast : ForecastData :=
  ⟨[], [⟨"2024-01-01T00:00:01", 47, true⟩]⟩

/-! ## Shared helper lemmas -/

/-- Length of one append: the buffer grows by one and is clamped at capacity. -/
theorem appendHistory_length (prev : List DataPoint) (p : DataPoint) :
    (appendHistory prev p).length = min (prev.length + 1) maxHistoryLength := by
  simp only [appendHistory, maxHistoryLength, List.length_drop, List.length_append,
    List.length_singleton]
  omega

/-- Every append leaves the appended point at the tail of the buffer. -/
theorem appendHistory_getLast? (prev : List DataPoint) (p : DataPoint) :
    (appendHistory prev p).getLast? = some p := by
  have hk : (prev ++ [p]).length - maxHistoryLength ≤ prev.length := by
    simp only [maxHistoryLength, List.length_append, List.length_singleton]
    omega
  rw [appendHistory, List.drop_append_of_le_length hk]
  exact List.getLast?_concat _

/-- The eviction in `appendHistory` only drops from the front: the result is
a suffix of the buffer followed by the new point. -/
theorem appendHistory_eq_drop (prev : List DataPoint) (p : DataPoint) :
    appendHistory prev p
      = prev.drop ((prev ++ [p]).length - maxHistoryLength) ++ [p] := by
  have hk : (prev ++ [p]).length - maxHistoryLength ≤ prev.length := by
    simp only [maxHistoryLength, List.length_append, List.length_singleton]
    omega
  rw [appendHistory, List.drop_append_of_le_length hk]

/-- Dropping strictly fewer elements than the length preserves the last
element. -/
theorem getLast?_drop_of_lt {α : Type} (l : List α) (k : Nat) (h : k < l.length) :
    (l.drop k).getLast? = l.getLast? := by
  have hne : l.drop k ≠ [] := by
    intro hnil
    have := congrArg List.length hnil
    simp only [List.length_drop, List.length_nil] at this
    omega
  conv_rhs => rw [← List.take_append_drop k l]
  rw [List.getLast?_append_of_ne_nil _ hne]

/-- Bounded length is preserved by any run of appends. -/
theorem foldl_appendHistory_length_le (l : List DataPoint) :
    ∀ init : List DataPoint, init.length ≤ maxHistoryLength →
      (l.foldl appendHistory init).length ≤ maxHistoryLength := by
  induction l with
  | nil => intro init h; simpa using h
  | cons p rest ih =>
      intro init _
      simp only [List.foldl_cons]
      exact ih (appendHistory init p) (by rw [appendHistory_length]; omega)

/-- `connectSession` preserves the socket-uniqueness invariant. -/
theorem connectSession_inv (t : Option String) (s : SessionState)
    (h : SessionInv s) : SessionInv (connectSession t s) := by
  unfold connectSession
  by_cases ht : jsTruthy t = true
  · simp only [ht, if_true]
    rcases h with ⟨hc, ho⟩ | ⟨i, hc, ho⟩
    · rw [hc]
      exact Or.inr ⟨s.nextId, rfl, by simp [ho]⟩
    · rw [hc]
      exact Or.inr ⟨s.nextId, rfl, by simp [ho]⟩
  · simp only [Bool.not_eq_true] at ht
    simpa [ht] using h

/-- The uniqueness invariant holds along any run of `connect` calls. -/
theorem foldl_connectSession_inv (calls : List (Option String)) :
    ∀ s : SessionState, SessionInv s →
      SessionInv (calls.foldl (fun s t => connectSession t s) s) := by
  induction calls with
  | nil => intro s h; simpa using h
  | cons t rest ih =>
      intro s h
      simp only [List.foldl_cons]
      exact ih _ (connectSession_inv t s h)

/-- A credential change touches only the connection resources, never the
published buffer. -/
theorem credChange_history (s : ProviderState) (t : Option String) :
    (credChange s t).history = s.history := by
  by_cases hw : s.wsOpen = true <;> by_cases ht : jsTruthy t = true <;>
    simp [credChange, effectCleanup, connectStep, wsCloseEvent, hw, ht]

/-- A credential change touches only the connection resources, never the
published latest value. -/
theorem credChange_latestValue (s : ProviderState) (t : Option String) :
    (credChange s t).latestValue = s.latestValue := by
  by_cases hw : s.wsOpen = true <;> by_cases ht : jsTruthy t = true <;>
    simp [credChange, effectCleanup, connectStep, wsCloseEvent, hw, ht]

/-- The buffer-latest coherence invariant. -/
def Coherent (s : ProviderState) : Prop :=
  s.history ≠ [] → s.latestValue = s.history.getLast?

/-- Every event-loop step preserves buffer-latest coherence. -/
theorem coherent_step (s : ProviderState) (e : CoreEvent)
    (h : Coherent s) : Coherent (step s e) := by
  cases e with
  | fetchSuccess data =>
      intro hne
      simp only [step, replaceAll] at hne ⊢
      cases hd : data.getLast? with
      | none =>
          exact absurd (List.getLast?_eq_none_iff.mp hd) hne
      | some q => simp [hd]
  | fetchFailure => exact h
  | socketOpen => intro hne; exact h hne
  | socketMessage f =>
      cases f with
      | malformed => exact h
      | envelope tag p =>
          by_cases htag : tag = "new_data"
          · intro _
            simp [step, onMessage, htag, appendHistory_getLast?]
          · simpa [step, onMessage, htag] using h
  | socketError => intro hne; exact h hne
  | socketClose code => intro hne; exact h hne
  | forecastSuccess d => intro hne; exact h hne
  | credentialChange t =>
      intro hne
      have hh : (step s (.credentialChange t)).history = s.history :=
        credChange_history s t
      have hl : (step s (.credentialChange t)).latestValue = s.latestValue :=
        credChange_latestValue s t
      rw [hh] at hne
      rw [hh, hl]
      exact h hne

/-- Buffer-latest coherence holds along any run of events. -/
theorem coherent_foldl (evs : List CoreEvent) :
    ∀ s : ProviderState, Coherent s → Coherent (evs.foldl step s) := by
  induction evs with
  | nil => intro s h; simpa using h
  | cons e rest ih =>
      intro s h
      simp only [List.foldl_cons]
      exact ih _ (coherent_step s e h)

/-! ## Claims -/

/-- C2: for every sequence of appends of incoming stream points, the history
buffer's length stays at most N = 50; each append puts the point at the end
and, when the length would exceed N, evicts from the front until the length
is exactly N. -/
theorem history_length_bounded (init : List DataPoint) (pts : List DataPoint)
    (h : init.length ≤ maxHistoryLength) :
    (∀ i, ((pts.take i).foldl appendHistory init).length ≤ maxHistoryLength) ∧
    (∀ buf p, (appendHistory buf p).getLast? = some p) ∧
    (∀ buf p, maxHistoryLength ≤ buf.length →
        (appendHistory buf p).length = maxHistoryLength) := by
  refine ⟨fun i => foldl_appendHistory_length_le _ init h,
          fun buf p => appendHistory_getLast? buf p,
          fun buf p hfull => ?_⟩
  rw [appendHistory_length]
  omega

/-- C2 witness: a concrete two-append run from the empty buffer stays within
capacity. -/
theorem history_length_bounded_witness :
    ((([p5, p3] : List DataPoint).take 2).foldl appendHistory []).length
      ≤ maxHistoryLength :=
  (history_length_bounded [] [p5, p3] (by decide)).1 2

/-- C10: along every event run of the provider from its initial state, a
non-empty published history forces the published latest value to be its last
element — stream appends and snapshot replaces keep the pair coherent, and
every failure path leaves both unchanged. -/
theorem latest_matches_history_tail (evs : List CoreEvent)
    (h : (evs.foldl step initProvider).history ≠ []) :
    (evs.foldl step initProvider).latestValue
      = (evs.foldl step initProvider).history.getLast? :=
  coherent_foldl evs initProvider (fun hne => absurd rfl hne) h

/-- C10 witness: after a concrete snapshot load the published latest value is
the tail of the published history. -/
theorem latest_matches_history_tail_witness :
    ([CoreEvent.fetchSuccess [p5]].foldl step initProvider).latestValue
      = ([CoreEvent.fetchSuccess [p5]].foldl step initProvider).history.getLast? :=
  latest_matches_history_tail [CoreEvent.fetchSuccess [p5]] (by decide)

/-- C3: a close event with code 1000 never schedules a reconnect attempt;
any other close code received while a credential is present schedules
exactly one reconnect attempt, firing after the fixed 3000 ms delay. -/
theorem close_code_reconnect_policy (code : Nat) (token : Option String) :
    (code = 1000 → (wsOnClose code token).reconnectDelayMs = none) ∧
    (code ≠ 1000 → jsTruthy token = true →
      (wsOnClose code token).reconnectDelayMs = some 3000) := by
  constructor
  · intro hc
    simp [wsOnClose, hc]
  · intro hc ht
    simp [wsOnClose, hc, ht]

/-- C3 witness: intentional close 1000 schedules nothing; abnormal close 1006
with a credential schedules the 3-second attempt. -/
theorem close_code_reconnect_policy_witness :
    (wsOnClose 1000 (some "jwt")).reconnectDelayMs = none ∧
    (wsOnClose 1006 (some "jwt")).reconnectDelayMs = some 3000 :=
  ⟨(close_code_reconnect_policy 1000 (some "jwt")).1 rfl,
   (close_code_reconnect_policy 1006 (some "jwt")).2 (by decide) (by decide)⟩

/-- C4: along every sequence of `connect` calls from the initial session —
including two in a row with a credential present — at most one socket handle
is open at any time, because each call closes the handle in `wsRef.current`
before constructing the next socket. -/
theorem single_open_connection (calls : List (Option String)) :
    ((calls.foldl (fun s t => connectSession t s) initSession).openIds).length ≤ 1 := by
  have hinv : SessionInv (calls.foldl (fun s t => connectSession t s) initSession) :=
    foldl_connectSession_inv calls initSession (Or.inl ⟨rfl, rfl⟩)
  rcases hinv with ⟨_, ho⟩ | ⟨i, _, ho⟩ <;> simp [ho]

/-- C5 counterexample: the snapshot load stores all 51 supplied points —
the buffer is NOT truncated to the most recent N = 50 entries, refuting the
claim as stated. -/
theorem replace_no_truncation_cx :
    ((replaceAll initProvider bigSnapshot).history).length = 51 ∧
    ¬ (((replaceAll initProvider bigSnapshot).history).length ≤ maxHistoryLength) := by
  constructor <;> decide

/-- C5 amended: the snapshot load overwrites the buffer wholesale with the
entire supplied sequence — order preserved, but with no truncation at
capacity — and when the sequence is non-empty a subsequent read of the
latest value returns its last element. -/
theorem replace_wholesale_latest (s : ProviderState) (data : List DataPoint)
    (h : data ≠ []) :
    (replaceAll s data).history = data ∧
    (replaceAll s data).latestValue = data.getLast? := by
  refine ⟨rfl, ?_⟩
  cases hd : data.getLast? with
  | none => exact absurd (List.getLast?_eq_none_iff.mp hd) h
  | some q => simp [replaceAll, hd]

/-- C5 amended witness: a concrete two-point snapshot is stored whole and the
latest value becomes its last element. -/
theorem replace_wholesale_latest_witness :
    (replaceAll initProvider [p5, p3]).history = [p5, p3] ∧
    (replaceAll initProvider [p5, p3]).latestValue = ([p5, p3] : List DataPoint).getLast? :=
  replace_wholesale_latest initProvider [p5, p3] (by decide)

/-- C1 counterexample: a wholesale replace seeding the buffer with a point
timestamped 00:00:05, followed by a stream append of a later-arriving point
timestamped 00:00:03, leaves the buffer holding both points in arrival order
— the stale point is neither dropped nor reordered, and the buffer ends in
non-chronological order, refuting the claim as stated. -/
theorem stale_append_breaks_order_cx :
    (step (step initProvider (CoreEvent.fetchSuccess [p5]))
        (CoreEvent.socketMessage (Frame.envelope "new_data" p3))).history
      = [p5, p3] ∧
    ¬ Chronological [p5, p3] :=
  ⟨rfl, by decide⟩

/-- C1 amended: an append whose point's timestamp is strictly earlier than
the buffer's current tail timestamp is appended at the end unconditionally
(subject only to FIFO eviction from the front); the appended point becomes
the tail and the resulting buffer is NOT in chronological order. -/
theorem stale_append_arrival_order (buf : List DataPoint) (p q : DataPoint)
    (hq : buf.getLast? = some q) (hts : tsLe q.timestamp p.timestamp = false) :
    appendHistory buf p
        = buf.drop ((buf ++ [p]).length - maxHistoryLength) ++ [p] ∧
    (appendHistory buf p).getLast? = some p ∧
    ¬ Chronological (appendHistory buf p) := by
  have hne : buf ≠ [] := by
    intro hnil
    rw [hnil] at hq
    exact Option.noConfusion hq
  have hlen : 0 < buf.length := List.length_pos.mpr hne
  have hk : (buf ++ [p]).length - maxHistoryLength < buf.length := by
    simp only [maxHistoryLength, List.length_append, List.length_singleton]
    omega
  refine ⟨appendHistory_eq_drop buf p, appendHistory_getLast? buf p, ?_⟩
  intro hchron
  unfold Chronological at hchron
  rw [appendHistory_eq_drop buf p] at hchron
  have hqdrop : (buf.drop ((buf ++ [p]).length - maxHistoryLength)).getLast? = some q := by
    rw [getLast?_drop_of_lt buf _ hk]
    exact hq
  have hqmem : q ∈ buf.drop ((buf ++ [p]).length - maxHistoryLength) :=
    List.mem_of_mem_getLast? hqdrop
  have hle := (List.pairwise_append.mp hchron).2.2 q hqmem p (List.mem_singleton_self p)
  rw [hle] at hts
  exact Bool.noConfusion hts

/-- C1 amended witness: the concrete stale append lands at the tail and the
result is out of chronological order. -/
theorem stale_append_arrival_order_witness :
    (appendHistory [p5] p3).getLast? = some p3 ∧
    ¬ Chronological (appendHistory [p5] p3) :=
  ⟨(stale_append_arrival_order [p5] p3 p5 rfl (by decide)).2.1,
   (stale_append_arrival_order [p5] p3 p5 rfl (by decide)).2.2⟩

/-- C6 counterexample: with the forecast toggle off and a snapshot whose
anomaly record matches the first history point, the merge effect still emits
a non-null anomaly marker — the anomaly series is computed outside the
toggle check, refuting the claim that no anomaly series is emitted. -/
theorem toggle_off_anomaly_cx :
    (mergeChart histTwo (some anomalousForecast) false (fun s => s)).map
        MergedChart.anomaly
      = some [some 47, none] ∧
    ((some [some 47, none] : Option (List (Option Int)))
      ≠ some [none, none]) :=
  ⟨rfl, by decide⟩

/-- C6 amended: with the forecast toggle off, the merged timeline collapses
to actual values only — labels are exactly the history timestamps, the
actual series is exactly the history values with no null padding, and the
predicted series is all null — recomputed purely from the inputs at hand
(the fetch trigger does not depend on the toggle, so no new fetch occurs);
the anomaly series, however, is still computed from the current snapshot and
is not omitted. -/
theorem toggle_off_actual_only (H : List DataPoint) (F : Option ForecastData)
    (fmt : String → String) (h : H ≠ []) :
    mergeChart H F false fmt =
      some { labels := H.map (fun pt => fmt pt.timestamp),
             actual := H.map (fun pt => some pt.value),
             predicted := List.replicate H.length none,
             anomaly := anomalySeries H F } := by
  have hlen : H.length > 0 := List.length_pos.mpr h
  cases F <;>
    simp [mergeChart, hlen, List.map_map, Function.comp]

/-- C6 amended witness: the concrete two-point history with the toggle off. -/
theorem toggle_off_actual_only_witness :
    mergeChart histTwo (some anomalousForecast) false (fun s => s) =
      some { labels := histTwo.map (fun pt => pt.timestamp),
             actual := histTwo.map (fun pt => some pt.value),
             predicted := List.replicate histTwo.length none,
             anomaly := anomalySeries histTwo (some anomalousForecast) } :=
  toggle_off_actual_only histTwo (some anomalousForecast) (fun s => s) (by decide)

/-- C7 counterexample: logging out from a connected state with a non-empty
buffer and a held forecast snapshot retains both — neither the history
buffer nor the forecast snapshot is cleared, refuting the claim as stated. -/
theorem logout_retains_buffer_cx :
    (logoutStep demoConnected).history ≠ [] ∧
    (logoutStep demoConnected).forecast ≠ none := by
  constructor <;> decide

/-- C7 amended: when the credential becomes absent while connected, the
socket is closed with the intentional code 1000 (whose close handler never
schedules a reconnect), the pending reconnect timer is cancelled, and
subsequent `connect` calls are silent no-ops while the credential is absent;
the history buffer, latest value and forecast snapshot are retained, not
cleared. -/
theorem logout_teardown_behavior (s : ProviderState)
    (_h1 : s.isConnected = true) (h2 : s.wsOpen = true) :
    (logoutStep s).wsOpen = false ∧
    (logoutStep s).isConnected = false ∧
    (logoutStep s).reconnectPending = false ∧
    (logoutStep s).token = none ∧
    (logoutStep s).history = s.history ∧
    (logoutStep s).latestValue = s.latestValue ∧
    (logoutStep s).forecast = s.forecast ∧
    connectStep (logoutStep s) = logoutStep s := by
  simp [logoutStep, credChange, effectCleanup, connectStep, wsCloseEvent, jsTruthy, h2]

/-- C7 amended witness: concrete logout from the connected demo state. -/
theorem logout_teardown_behavior_witness :
    (logoutStep demoConnected).wsOpen = false ∧
    (logoutStep demoConnected).isConnected = false ∧
    (logoutStep demoConnected).reconnectPending = false ∧
    (logoutStep demoConnected).token = none ∧
    (logoutStep demoConnected).history = demoConnected.history ∧
    (logoutStep demoConnected).latestValue = demoConnected.latestValue ∧
    (logoutStep demoConnected).forecast = demoConnected.forecast ∧
    connectStep (logoutStep demoConnected) = logoutStep demoConnected :=
  logout_teardown_behavior demoConnected rfl rfl

/-- C8: with the toggle on, merging a two-point history with a one-point
forecast yields labels `[t1, t2, t3]` (formatted), the actual series
`[v1, v2, null]` padded with a null over the forecast horizon, and the
predicted series `[null, v2, v3]` duplicating the last actual value as the
join point. -/
theorem merge_join_point (i1 i2 : Nat) (n1 n2 : String) (v1 v2 v3 lb ub : Int)
    (t1 t2 t3 : String) (ar : List AnomalyRecord) (fmt : String → String) :
    (mergeChart [⟨i1, n1, v1, t1⟩, ⟨i2, n2, v2, t2⟩]
        (some ⟨[⟨t3, v3, lb, ub⟩], ar⟩) true fmt).map MergedChart.labels
      = some [fmt t1, fmt t2, fmt t3] ∧
    (mergeChart [⟨i1, n1, v1, t1⟩, ⟨i2, n2, v2, t2⟩]
        (some ⟨[⟨t3, v3, lb, ub⟩], ar⟩) true fmt).map MergedChart.actual
      = some [some v1, some v2, none] ∧
    (mergeChart [⟨i1, n1, v1, t1⟩, ⟨i2, n2, v2, t2⟩]
        (some ⟨[⟨t3, v3, lb, ub⟩], ar⟩) true fmt).map MergedChart.predicted
      = some [none, some v2, some v3] :=
  ⟨rfl, rfl, rfl⟩

/-- C9 counterexample: a well-formed frame whose `type` is not `new_data` is
discarded with NO internal error logged — the code logs only on parse
failure — refuting the claim that an internal error is logged for every such
frame. -/
theorem unrecognized_tag_silent_cx :
    (onMessage demoConnected (Frame.envelope "status" p5)).2 = false ∧
    (onMessage demoConnected (Frame.envelope "status" p5)).1 = demoConnected :=
  ⟨rfl, rfl⟩

/-- C9 amended: every inbound frame that fails to parse, or parses to an
envelope whose `type` is not `new_data`, leaves the whole provider state
unchanged — the connection stays in its current (connected) state, the
buffer and latest value are untouched, and no user-facing connection error
is set; an internal error is logged exactly when the frame failed to parse
(unrecognized tags are discarded silently). -/
theorem malformed_frame_handling (s : ProviderState) (f : Frame)
    (h : f = Frame.malformed ∨ ∃ tag p, f = Frame.envelope tag p ∧ tag ≠ "new_data") :
    (onMessage s f).1 = s ∧ ((onMessage s f).2 = true ↔ f = Frame.malformed) := by
  rcases h with hm | ⟨tag, p, hf, htag⟩
  · subst hm
    exact ⟨rfl, by simp [onMessage]⟩
  · subst hf
    refine ⟨?_, ?_⟩
    · simp [onMessage, htag]
    · simp [onMessage, htag]

/-- C9 amended witness: a concrete malformed frame is dropped, the state is
unchanged, and the parse error is logged. -/
theorem malformed_frame_handling_witness :
    (onMessage demoConnected Frame.malformed).1 = demoConnected ∧
    ((onMessage demoConnected Frame.malformed).2 = true
      ↔ Frame.malformed = Frame.malformed) :=
  malformed_frame_handling demoConnected Frame.malformed (Or.inl rfl)

end Insight
